import Mathlib

/-!
Shallow embedding of `src/WSPRbeacon/WSPRbeacon.c` (pico-WSPR-tx).

The file models the beacon context data structure, the packet
construction / transmit handoff (`WSPRbeaconCreatePacket`,
`WSPRbeaconSendPacket`) and the polling scheduler
(`WSPRbeaconTxScheduler`), and proves the testable properties of the
scheduler over this model.

Modelling conventions:
* C unsigned integers become `Nat`; where the C width matters
  (the `uint32_t` assignment on line 148 of the source, the `uint64_t`
  subtraction on line 132) the reduction modulo `2^32` / `2^64` is
  written out explicitly.
* The function-`static` variable `itx_trigger` (line 155 of the source)
  is process-wide state; it is threaded through `WSPRbeaconTxScheduler`
  as an explicit input/output that is *not* part of the beacon context,
  mirroring its sharing across all beacon contexts.
* `assert_` failure (a fatal abort, not a status return) is modelled by
  returning `none`.
* `StampPrintf` logging is out of scope (spec §1) and not modelled; the
  observable hardware/encode actions of one poll are collected in a
  trace list in source order.
-/

/-- Modelled from the spec: frequency unit constant from the repository
defines header (not under `src/`); the spec fixes the hardware floor at
1.1 MHz = `1100 * kHz`. -/
def kHz : Nat := 1000

/-- Modelled from the spec: time unit constant (seconds per minute) from
the repository defines header (not under `src/`). -/
def MINUTE : Nat := 60

/-- Modelled from the spec: time unit constant (seconds per hour) from
the repository defines header (not under `src/`); the spec fixes the
slot arithmetic modulus at 3600 s. -/
def HOUR : Nat := 3600

/-- Modelled from the spec: affirmative value of the override flag
(`_u8_tx_GPS_past_time == YES`), from a repository header not under
`src/`. -/
def YES : Nat := 1

/-- Modelled from the spec: the protocol's fixed symbol count (WSPR
symbol sequence length), declared in `WSPRutility.h` which is not under
`src/`. -/
def WSPR_SYMBOL_COUNT : Nat := 162

/-- Snapshot of the external GPS time reference
(`_time_data` of the GPS time context). Fields keep the source names. -/
structure GPStimeData where
  _u32_nmea_gprmc_count : Nat
  _u8_is_solution_active : Nat
  _u64_sysclk_nmea_last : Nat
  _u32_utime_nmea_last : Nat
deriving DecidableEq, Repr

/-- GPS time context (`_pGPStime`); only `_time_data` is read by the
beacon core. -/
structure GPStimeContext where
  _time_data : GPStimeData
deriving DecidableEq, Repr

/-- Oscillator handle (`_p_oscillator`); the beacon core reads only its
GPS time context. Start/stop of the hardware appear as trace actions. -/
structure PioDco where
  _pGPStime : GPStimeContext
deriving DecidableEq, Repr

/-- Transmit channel (`_pTX`): effective dial frequency, symbol buffer
and producer write-position counter. -/
structure TxChannel where
  _u32_dialfreqhz : Nat
  _pbyte_buffer : List Nat
  _ix_input : Nat
  _p_oscillator : PioDco
deriving DecidableEq, Repr

/-- Schedule configuration (`_txSched`): slot-skip factor and the
GPS-holdover override flag. -/
structure TxScheduler where
  _u8_tx_GPS_past_time : Nat
  _u8_tx_slot_skip : Nat
deriving DecidableEq, Repr

/-- WSPR beacon context (`WSPRbeaconContext`). -/
structure WSPRbeaconContext where
  _pu8_callsign : String
  _pu8_locator : String
  _u8_txpower : Nat
  _pu8_outbuf : List Nat
  _pTX : TxChannel
  _txSched : TxScheduler
deriving DecidableEq, Repr

/-- The GPS time snapshot reached through
`pctx->_pTX->_p_oscillator->_pGPStime->_time_data`. -/
def gpsData (pctx : WSPRbeaconContext) : GPStimeData :=
  pctx._pTX._p_oscillator._pGPStime._time_data

/-- Wrapping `uint64_t` subtraction `a - b` (C semantics), for operand
values taken modulo `2^64`. -/
def u64sub (a b : Nat) : Nat :=
  (a % 18446744073709551616 + 18446744073709551616 - b % 18446744073709551616)
    % 18446744073709551616

/-- Source lines 132-133: `u64_GPS_last_age_sec` — the age of the last
fix in whole seconds, from the monotonic microsecond clock and the
last-fix monotonic timestamp only. -/
def gpsAge (u64tmnow : Nat) (td : GPStimeData) : Nat :=
  u64sub u64tmnow td._u64_sysclk_nmea_last / 1000000

/-- Source line 146: the reference-eligibility test
`is_GPS_active || (is_GPS_override && u64_GPS_last_age_sec < 2 * HOUR)`. -/
def gpsEligible (u64tmnow : Nat) (pctx : WSPRbeaconContext) : Bool :=
  ((gpsData pctx)._u8_is_solution_active != 0)
    || ((pctx._txSched._u8_tx_GPS_past_time == YES)
        && decide (gpsAge u64tmnow (gpsData pctx) < 2 * HOUR))

/-- Source lines 148-149: `u32_unixtime_now` — the extrapolated absolute
time `_u32_utime_nmea_last + u64_GPS_last_age_sec`, truncated by the
`uint32_t` assignment. -/
def unixTimeNow (u64tmnow : Nat) (td : GPStimeData) : Nat :=
  (td._u32_utime_nmea_last + gpsAge u64tmnow td) % 4294967296

/-- Source lines 151-152: `isec_of_hour = u32_unixtime_now % HOUR;
islot_number = isec_of_hour / (2 * MINUTE)`. -/
def slotIndexOf (u32_unixtime_now : Nat) : Nat :=
  (u32_unixtime_now % HOUR) / (2 * MINUTE)

/-- Observable actions of one scheduler poll, in source order; logging
is out of scope and not traced. -/
inductive PollAction where
  | createPacket
  | pioDCOStart
  | sleepMs (ms : Nat)
  | sendPacket
  | pioDCOStop
deriving DecidableEq, BEq, Repr

/-- Modelled from the spec: the external `wspr_encode` PacketEncoder — a
pure function of (callsign, locator, power) producing a fixed-length
symbol sequence of `WSPR_SYMBOL_COUNT` symbols; the symbol values
themselves are out of scope and stubbed. -/
def wspr_encode (callsign locator : String) (power : Nat) : List Nat :=
  List.replicate WSPR_SYMBOL_COUNT ((callsign.length + locator.length + power) % 4)

/-- Source lines 99-106: `WSPRbeaconCreatePacket` — encodes the identity
fields into the context's output buffer and returns 0. -/
def WSPRbeaconCreatePacket (pctx : WSPRbeaconContext) : WSPRbeaconContext × Int :=
  ({ pctx with
      _pu8_outbuf := wspr_encode pctx._pu8_callsign pctx._pu8_locator pctx._u8_txpower }, 0)

/-- Source lines 117-118: the `memcpy` of `WSPR_SYMBOL_COUNT` symbols
into the transmit channel's buffer and the advance of the write-position
counter `_ix_input` by `WSPR_SYMBOL_COUNT`. -/
def txChannelPush (pctx : WSPRbeaconContext) : WSPRbeaconContext :=
  { pctx with
      _pTX := { pctx._pTX with
        _pbyte_buffer := pctx._pu8_outbuf.take WSPR_SYMBOL_COUNT
        _ix_input := pctx._pTX._ix_input + WSPR_SYMBOL_COUNT } }

/-- Source lines 111-121: `WSPRbeaconSendPacket` — asserts
`_u32_dialfreqhz > 1100 * kHz` (fatal abort, modelled as `none`
on violation), then copies the packet and advances the counter,
returning 0. -/
def WSPRbeaconSendPacket (pctx : WSPRbeaconContext) : Option (WSPRbeaconContext × Int) :=
  if 1100 * kHz < pctx._pTX._u32_dialfreqhz then
    some (txChannelPush pctx, 0)
  else
    none

/-- Source lines 123-180: `WSPRbeaconTxScheduler`. The function-static
latch `itx_trigger` is passed in and returned explicitly (it is
process-wide, not a context field). Result: `some (latch', trace,
return-code, pctx')`, or `none` if the `assert_` inside
`WSPRbeaconSendPacket` aborts the process. -/
def WSPRbeaconTxScheduler (itx_trigger : Bool) (u64tmnow : Nat) (pctx : WSPRbeaconContext) :
    Option (Bool × List PollAction × Int × WSPRbeaconContext) :=
  if (gpsData pctx)._u32_nmea_gprmc_count = 0 then
    some (itx_trigger, [], -1, pctx)
  else if gpsEligible u64tmnow pctx then
    if slotIndexOf (unixTimeNow u64tmnow (gpsData pctx)) % pctx._txSched._u8_tx_slot_skip = 0 then
      if itx_trigger then
        some (itx_trigger, [], 0, pctx)
      else
        match WSPRbeaconSendPacket (WSPRbeaconCreatePacket pctx).1 with
        | some (pctx2, _) =>
            some (true,
              [PollAction.createPacket, PollAction.pioDCOStart, PollAction.sleepMs 100, PollAction.sendPacket],
              0, pctx2)
        | none => none
    else
      some (false, [PollAction.pioDCOStop], 0, pctx)
  else
    some (itx_trigger, [], 0, pctx)

/-- Whether a poll result performed the transmit handoff. -/
def pollTransmits (r : Option (Bool × List PollAction × Int × WSPRbeaconContext)) : Bool :=
  match r with
  | some (_, acts, _, _) => acts.elem PollAction.sendPacket
  | none => false

/-- The latch value after a poll (`dflt` if the poll aborted). -/
def pollLatch (r : Option (Bool × List PollAction × Int × WSPRbeaconContext)) (dflt : Bool) : Bool :=
  match r with
  | some (latch, _, _, _) => latch
  | none => dflt

/-- The return code of a poll, when it did not abort. -/
def pollReturn (r : Option (Bool × List PollAction × Int × WSPRbeaconContext)) : Option Int :=
  r.map (fun x => x.2.2.1)

/-- Sample context builder for concrete test points. -/
def mkCtx (count active sysclk utime past skp freq : Nat) : WSPRbeaconContext :=
  { _pu8_callsign := "R2BDY"
    _pu8_locator := "KO85"
    _u8_txpower := 10
    _pu8_outbuf := []
    _pTX := { _u32_dialfreqhz := freq
              _pbyte_buffer := []
              _ix_input := 0
              _p_oscillator := { _pGPStime := { _time_data :=
                { _u32_nmea_gprmc_count := count
                  _u8_is_solution_active := active
                  _u64_sysclk_nmea_last := sysclk
                  _u32_utime_nmea_last := utime } } } }
    _txSched := { _u8_tx_GPS_past_time := past, _u8_tx_slot_skip := skp } }

/-- Fix received, solution active, skip factor 1, 40 m WSPR frequency. -/
def ctxBase : WSPRbeaconContext := mkCtx 1 1 0 0 0 1 7040100

/-- As `ctxBase` but no fix ever received. -/
def ctxNoFix : WSPRbeaconContext := mkCtx 0 1 0 0 0 1 7040100

/-- Fix received, solution inactive, override off: ineligible. -/
def ctxIdle : WSPRbeaconContext := mkCtx 1 0 0 0 0 1 7040100

/-- Fix received, solution inactive, override on. -/
def ctxOverride : WSPRbeaconContext := mkCtx 1 0 0 0 1 1 7040100

/-- Solution active with the last fix at the largest `uint32_t` unix
time, exhibiting the 32-bit truncation of the extrapolated time. -/
def ctxWrap : WSPRbeaconContext := mkCtx 1 1 0 4294967295 0 1 7040100

/-- As `ctxBase` with slot-skip factor 2. -/
def ctxSkip2 : WSPRbeaconContext := mkCtx 1 1 0 0 0 2 7040100

/-- Effective frequency exactly at the 1.1 MHz floor. -/
def ctxLowFreq : WSPRbeaconContext := mkCtx 1 1 0 0 0 1 1100000

/-- A second beacon instance with a different identity. -/
def ctxOther : WSPRbeaconContext :=
  { ctxBase with _pu8_callsign := "OK1CDJ", _pu8_locator := "JN79" }

/-- Source lines 140-144: with no fix ever received the scheduler
returns -1 immediately, touching nothing. -/
theorem txScheduler_noFix (itx : Bool) (t : Nat) (c : WSPRbeaconContext)
    (h : (gpsData c)._u32_nmea_gprmc_count = 0) :
    WSPRbeaconTxScheduler itx t c = some (itx, [], -1, c) := by
  unfold WSPRbeaconTxScheduler
  rw [if_pos h]

/-- Ineligible reference (fix present): the scheduler falls through to
`return 0` with no action, no latch change, no context change. -/
theorem txScheduler_ineligible (itx : Bool) (t : Nat) (c : WSPRbeaconContext)
    (hav : (gpsData c)._u32_nmea_gprmc_count ≠ 0)
    (hne : gpsEligible t c = false) :
    WSPRbeaconTxScheduler itx t c = some (itx, [], 0, c) := by
  unfold WSPRbeaconTxScheduler
  rw [if_neg hav]
  simp [hne]

/-- Qualifying slot with the latch already set: no action. -/
theorem txScheduler_latched (t : Nat) (c : WSPRbeaconContext)
    (hav : (gpsData c)._u32_nmea_gprmc_count ≠ 0)
    (he : gpsEligible t c = true)
    (hq : slotIndexOf (unixTimeNow t (gpsData c)) % c._txSched._u8_tx_slot_skip = 0) :
    WSPRbeaconTxScheduler true t c = some (true, [], 0, c) := by
  unfold WSPRbeaconTxScheduler
  rw [if_neg hav]
  simp [he, hq]

/-- Non-qualifying slot while eligible: the latch is cleared and the
oscillator is stopped. -/
theorem txScheduler_nonqual (itx : Bool) (t : Nat) (c : WSPRbeaconContext)
    (hav : (gpsData c)._u32_nmea_gprmc_count ≠ 0)
    (he : gpsEligible t c = true)
    (hq : slotIndexOf (unixTimeNow t (gpsData c)) % c._txSched._u8_tx_slot_skip ≠ 0) :
    WSPRbeaconTxScheduler itx t c = some (false, [PollAction.pioDCOStop], 0, c) := by
  unfold WSPRbeaconTxScheduler
  rw [if_neg hav]
  simp [he, hq]

/-- `WSPRbeaconCreatePacket` only rewrites the output buffer. -/
theorem createPacket_pTX (c : WSPRbeaconContext) :
    (WSPRbeaconCreatePacket c).1._pTX = c._pTX := rfl

/-- Qualifying slot, latch clear, frequency above the floor: the full
trigger sequence runs in source order. -/
theorem txScheduler_trigger (t : Nat) (c : WSPRbeaconContext)
    (hav : (gpsData c)._u32_nmea_gprmc_count ≠ 0)
    (he : gpsEligible t c = true)
    (hq : slotIndexOf (unixTimeNow t (gpsData c)) % c._txSched._u8_tx_slot_skip = 0)
    (hfreq : 1100 * kHz < c._pTX._u32_dialfreqhz) :
    WSPRbeaconTxScheduler false t c =
      some (true,
        [PollAction.createPacket, PollAction.pioDCOStart, PollAction.sleepMs 100,
         PollAction.sendPacket],
        0, txChannelPush (WSPRbeaconCreatePacket c).1) := by
  have hsend : WSPRbeaconSendPacket (WSPRbeaconCreatePacket c).1 =
      some (txChannelPush (WSPRbeaconCreatePacket c).1, 0) := by
    unfold WSPRbeaconSendPacket
    rw [createPacket_pTX, if_pos hfreq]
  unfold WSPRbeaconTxScheduler
  rw [if_neg hav]
  simp [he, hq, hsend]

/-- C4: for every unix time `t`, the slot index computed by the
scheduler equals `(t mod 3600) / 120` and lies in the range 0..29. -/
theorem C4_slot_index (t : Nat) :
    slotIndexOf t = (t % 3600) / 120 ∧ slotIndexOf t ≤ 29 := by
  constructor
  · rfl
  · have h : t % 3600 ≤ 3599 := Nat.lt_succ_iff.mp (Nat.mod_lt _ (by norm_num))
    calc slotIndexOf t = (t % 3600) / 120 := rfl
      _ ≤ 3599 / 120 := Nat.div_le_div_right h
      _ = 29 := by norm_num

/-- C5: `WSPRbeaconSendPacket` aborts (fatal assert, modelled `none`)
whenever the effective frequency is ≤ 1,100,000 Hz; above that floor it
returns 0 and advances the transmit channel's write-position counter by
exactly `WSPR_SYMBOL_COUNT`, never decreasing it. -/
theorem C5_send_packet (c : WSPRbeaconContext) :
    (c._pTX._u32_dialfreqhz ≤ 1100000 → WSPRbeaconSendPacket c = none) ∧
    (1100000 < c._pTX._u32_dialfreqhz →
      WSPRbeaconSendPacket c = some (txChannelPush c, 0) ∧
      (txChannelPush c)._pTX._ix_input = c._pTX._ix_input + WSPR_SYMBOL_COUNT ∧
      c._pTX._ix_input ≤ (txChannelPush c)._pTX._ix_input) := by
  have hk : 1100 * kHz = 1100000 := rfl
  refine ⟨fun h => ?_, fun h => ⟨?_, rfl, Nat.le_add_right _ _⟩⟩
  · unfold WSPRbeaconSendPacket
    rw [if_neg (by rw [hk]; exact not_lt.mpr h)]
  · unfold WSPRbeaconSendPacket
    rw [if_pos (by rw [hk]; exact h)]

/-- C5 witness: at the floor (1,100,000 Hz) the send aborts; on a 40 m
WSPR frequency it succeeds and advances the counter by 162. -/
theorem C5_send_packet_witness :
    WSPRbeaconSendPacket ctxLowFreq = none ∧
    (WSPRbeaconSendPacket ctxBase = some (txChannelPush ctxBase, 0) ∧
      (txChannelPush ctxBase)._pTX._ix_input = ctxBase._pTX._ix_input + WSPR_SYMBOL_COUNT ∧
      ctxBase._pTX._ix_input ≤ (txChannelPush ctxBase)._pTX._ix_input) :=
  ⟨(C5_send_packet ctxLowFreq).1 (by decide), (C5_send_packet ctxBase).2 (by decide)⟩

/-- C6: with the solution inactive and the override enabled, a reference
age of exactly 7200 s is not eligible (the bound is a strict
less-than), and such a poll takes no action. -/
theorem C6_age_boundary (itx : Bool) (t : Nat) (c : WSPRbeaconContext)
    (hact : (gpsData c)._u8_is_solution_active = 0)
    (hov : c._txSched._u8_tx_GPS_past_time = YES)
    (hage : gpsAge t (gpsData c) = 7200) :
    gpsEligible t c = false ∧
    ((gpsData c)._u32_nmea_gprmc_count ≠ 0 →
      WSPRbeaconTxScheduler itx t c = some (itx, [], 0, c)) := by
  have hne : gpsEligible t c = false := by
    unfold gpsEligible
    rw [hact, hov, hage]
    decide
  exact ⟨hne, fun hav => txScheduler_ineligible itx t c hav hne⟩

/-- C6 witness: override enabled, monotonic clock 7.2e9 µs past the
fix, so the age is exactly 7200 s — ineligible, no action. -/
theorem C6_age_boundary_witness :
    gpsEligible 7200000000 ctxOverride = false ∧
    ((gpsData ctxOverride)._u32_nmea_gprmc_count ≠ 0 →
      WSPRbeaconTxScheduler false 7200000000 ctxOverride = some (false, [], 0, ctxOverride)) :=
  C6_age_boundary false 7200000000 ctxOverride (by decide) (by decide) (by decide)

/-- C10: with a fix present but the reference ineligible, the poll
leaves the latch, the context and the hardware untouched (empty action
trace: in particular no oscillator stop) and returns 0. -/
theorem C10_ineligible_frame (itx : Bool) (t : Nat) (c : WSPRbeaconContext)
    (hav : (gpsData c)._u32_nmea_gprmc_count ≠ 0)
    (hne : gpsEligible t c = false) :
    WSPRbeaconTxScheduler itx t c = some (itx, [], 0, c) :=
  txScheduler_ineligible itx t c hav hne

/-- C10 witness: the latch set by an earlier qualifying slot stays set,
and no stop action is emitted, on an ineligible poll. -/
theorem C10_ineligible_frame_witness :
    WSPRbeaconTxScheduler true 0 ctxIdle = some (true, [], 0, ctxIdle) :=
  C10_ineligible_frame true 0 ctxIdle (by decide) (by decide)

/-- C8: a triggering poll performs exactly the trace
encode, hardware start, 100 ms settle, transmit handoff — in that
order. -/
theorem C8_trigger_order (t : Nat) (c : WSPRbeaconContext)
    (hav : (gpsData c)._u32_nmea_gprmc_count ≠ 0)
    (he : gpsEligible t c = true)
    (hq : slotIndexOf (unixTimeNow t (gpsData c)) % c._txSched._u8_tx_slot_skip = 0)
    (hfreq : 1100 * kHz < c._pTX._u32_dialfreqhz) :
    WSPRbeaconTxScheduler false t c =
      some (true,
        [PollAction.createPacket, PollAction.pioDCOStart, PollAction.sleepMs 100,
         PollAction.sendPacket],
        0, txChannelPush (WSPRbeaconCreatePacket c).1) :=
  txScheduler_trigger t c hav he hq hfreq

/-- C8 witness: the trigger trace on a concrete qualifying poll. -/
theorem C8_trigger_order_witness :
    WSPRbeaconTxScheduler false 0 ctxBase =
      some (true,
        [PollAction.createPacket, PollAction.pioDCOStart, PollAction.sleepMs 100,
         PollAction.sendPacket],
        0, txChannelPush (WSPRbeaconCreatePacket ctxBase).1) :=
  C8_trigger_order 0 ctxBase (by decide) (by decide) (by decide) (by decide)

/-- C1 counterexample: a poll whose slot qualifies and whose reference
is eligible, yet — because the latch is already set — no transmission
is triggered; the claimed iff fails. -/
theorem C1_counterexample :
    gpsEligible 0 ctxBase = true ∧
    slotIndexOf (unixTimeNow 0 (gpsData ctxBase)) % ctxBase._txSched._u8_tx_slot_skip = 0 ∧
    pollTransmits (WSPRbeaconTxScheduler true 0 ctxBase) = false := by
  decide

/-- C1 (amended): a poll triggers a transmission iff a fix was ever
received AND the latch is clear AND the slot qualifies AND the
reference is eligible. -/
theorem C1_trigger_iff (itx : Bool) (t : Nat) (c : WSPRbeaconContext)
    (hfreq : 1100 * kHz < c._pTX._u32_dialfreqhz) :
    pollTransmits (WSPRbeaconTxScheduler itx t c) = true ↔
      ((gpsData c)._u32_nmea_gprmc_count ≠ 0 ∧ itx = false ∧
        gpsEligible t c = true ∧
        slotIndexOf (unixTimeNow t (gpsData c)) % c._txSched._u8_tx_slot_skip = 0) := by
  by_cases hav : (gpsData c)._u32_nmea_gprmc_count = 0
  · rw [txScheduler_noFix itx t c hav]
    simp [pollTransmits, hav, List.elem]
  · by_cases he : gpsEligible t c = true
    · by_cases hq :
        slotIndexOf (unixTimeNow t (gpsData c)) % c._txSched._u8_tx_slot_skip = 0
      · cases itx
        · rw [txScheduler_trigger t c hav he hq hfreq]
          exact iff_of_true rfl ⟨hav, rfl, he, hq⟩
        · rw [txScheduler_latched t c hav he hq]
          simp [pollTransmits, List.elem]
      · rw [txScheduler_nonqual itx t c hav he hq]
        exact iff_of_false (fun h => Bool.noConfusion h) (fun h => hq h.2.2.2)
    · have hne : gpsEligible t c = false := by
        simpa using he
      rw [txScheduler_ineligible itx t c hav hne]
      simp [pollTransmits, hne, List.elem]

/-- C1 witness: the amended iff instantiated at a qualifying, eligible
poll with the latch clear — the transmission is triggered. -/
theorem C1_trigger_iff_witness :
    pollTransmits (WSPRbeaconTxScheduler false 0 ctxBase) = true :=
  (C1_trigger_iff false 0 ctxBase (by decide)).mpr (by decide)

/-- C2 counterexample: a poll with a fix present but an ineligible
reference returns 0 — the code returned by the "ok" cases — while the
no-fix-ever poll returns -1; the two "reference unavailable" cases of
the claim do not return the same status. -/
theorem C2_counterexample :
    (gpsData ctxIdle)._u32_nmea_gprmc_count ≠ 0 ∧
    gpsEligible 0 ctxIdle = false ∧
    WSPRbeaconTxScheduler false 0 ctxIdle = some (false, [], 0, ctxIdle) ∧
    WSPRbeaconTxScheduler false 0 ctxNoFix = some (false, [], -1, ctxNoFix) ∧
    pollReturn (WSPRbeaconTxScheduler false 0 ctxIdle) ≠
      pollReturn (WSPRbeaconTxScheduler false 0 ctxNoFix) := by
  decide

/-- C2 (amended): the -1 ("reference unavailable") status is returned
exactly when no fix was ever received; with a fix the poll returns 0
even when the reference is ineligible, and in both no-fix and
ineligible cases it takes no action, changes no latch, performs no
keying. -/
theorem C2_status_codes (itx : Bool) (t : Nat) (c : WSPRbeaconContext)
    (hfreq : 1100 * kHz < c._pTX._u32_dialfreqhz) :
    (pollReturn (WSPRbeaconTxScheduler itx t c) = some (-1) ↔
      (gpsData c)._u32_nmea_gprmc_count = 0) ∧
    ((gpsData c)._u32_nmea_gprmc_count ≠ 0 →
      pollReturn (WSPRbeaconTxScheduler itx t c) = some 0) ∧
    ((gpsData c)._u32_nmea_gprmc_count = 0 ∨ gpsEligible t c = false →
      WSPRbeaconTxScheduler itx t c =
        some (itx, [], if (gpsData c)._u32_nmea_gprmc_count = 0 then -1 else 0, c)) := by
  by_cases hav : (gpsData c)._u32_nmea_gprmc_count = 0
  · rw [txScheduler_noFix itx t c hav]
    refine ⟨iff_of_true rfl hav, fun h => absurd hav h, fun _ => ?_⟩
    rw [if_pos hav]
  · have hrc : pollReturn (WSPRbeaconTxScheduler itx t c) = some 0 := by
      by_cases he : gpsEligible t c = true
      · by_cases hq :
          slotIndexOf (unixTimeNow t (gpsData c)) % c._txSched._u8_tx_slot_skip = 0
        · cases itx
          · rw [txScheduler_trigger t c hav he hq hfreq]
            rfl
          · rw [txScheduler_latched t c hav he hq]
            rfl
        · rw [txScheduler_nonqual itx t c hav he hq]
          rfl
      · rw [txScheduler_ineligible itx t c hav (by simpa using he)]
        rfl
    refine ⟨?_, fun _ => hrc, fun hor => ?_⟩
    · rw [hrc]
      exact iff_of_false (by decide) hav
    · rcases hor with h0 | hne
      · exact absurd h0 hav
      · rw [txScheduler_ineligible itx t c hav hne, if_neg hav]

/-- C2 witness: with no fix ever received the poll returns -1. -/
theorem C2_status_codes_witness :
    pollReturn (WSPRbeaconTxScheduler false 0 ctxNoFix) = some (-1) :=
  (C2_status_codes false 0 ctxNoFix (by decide)).1.mpr (by decide)

/-- C3: (a) with the latch set, a second poll inside a qualifying slot
triggers nothing; (b) the first eligible poll observing a
non-qualifying slot clears the latch; (c) after such a clearing poll, a
subsequent qualifying eligible poll triggers again (the latch re-arms
across a slot→non-slot→slot cycle). -/
theorem C3_latch_cycle :
    (∀ t : Nat, ∀ c : WSPRbeaconContext,
      (gpsData c)._u32_nmea_gprmc_count ≠ 0 → gpsEligible t c = true →
      slotIndexOf (unixTimeNow t (gpsData c)) % c._txSched._u8_tx_slot_skip = 0 →
      WSPRbeaconTxScheduler true t c = some (true, [], 0, c)) ∧
    (∀ itx : Bool, ∀ t : Nat, ∀ c : WSPRbeaconContext,
      (gpsData c)._u32_nmea_gprmc_count ≠ 0 → gpsEligible t c = true →
      slotIndexOf (unixTimeNow t (gpsData c)) % c._txSched._u8_tx_slot_skip ≠ 0 →
      WSPRbeaconTxScheduler itx t c = some (false, [PollAction.pioDCOStop], 0, c)) ∧
    (∀ t t2 : Nat, ∀ c c2 : WSPRbeaconContext,
      (gpsData c)._u32_nmea_gprmc_count ≠ 0 → gpsEligible t c = true →
      slotIndexOf (unixTimeNow t (gpsData c)) % c._txSched._u8_tx_slot_skip ≠ 0 →
      (gpsData c2)._u32_nmea_gprmc_count ≠ 0 → gpsEligible t2 c2 = true →
      slotIndexOf (unixTimeNow t2 (gpsData c2)) % c2._txSched._u8_tx_slot_skip = 0 →
      1100 * kHz < c2._pTX._u32_dialfreqhz →
      pollTransmits
        (WSPRbeaconTxScheduler (pollLatch (WSPRbeaconTxScheduler true t c) true) t2 c2) =
        true) := by
  refine ⟨fun t c hav he hq => txScheduler_latched t c hav he hq,
          fun itx t c hav he hq => txScheduler_nonqual itx t c hav he hq,
          fun t t2 c c2 hav he hq hav2 he2 hq2 hf2 => ?_⟩
  rw [txScheduler_nonqual true t c hav he hq]
  show pollTransmits (WSPRbeaconTxScheduler false t2 c2) = true
  rw [txScheduler_trigger t2 c2 hav2 he2 hq2 hf2]
  rfl

/-- C3 witness: with skip factor 2, the latch held through slot 0, a
poll in slot 1 clears it and stops the oscillator, and a poll in slot 2
triggers again. -/
theorem C3_latch_cycle_witness :
    WSPRbeaconTxScheduler true 0 ctxSkip2 = some (true, [], 0, ctxSkip2) ∧
    WSPRbeaconTxScheduler true 120000000 ctxSkip2 =
      some (false, [PollAction.pioDCOStop], 0, ctxSkip2) ∧
    pollTransmits
      (WSPRbeaconTxScheduler (pollLatch (WSPRbeaconTxScheduler true 120000000 ctxSkip2) true)
        240000000 ctxSkip2) = true :=
  ⟨C3_latch_cycle.1 0 ctxSkip2 (by decide) (by decide) (by decide),
   C3_latch_cycle.2.1 true 120000000 ctxSkip2 (by decide) (by decide) (by decide),
   C3_latch_cycle.2.2 120000000 240000000 ctxSkip2 ctxSkip2 (by decide) (by decide)
     (by decide) (by decide) (by decide) (by decide) (by decide)⟩

/-- C7 counterexample: with the last fix at unix time 4294967295 and an
age of 1 s, the extrapolated time is 0, not 4294967296 — the `uint32_t`
assignment truncates, so `unixNow` does not equal
`lastFixUnixTime + ageSeconds` exactly for every eligible poll. -/
theorem C7_counterexample :
    gpsEligible 1000000 ctxWrap = true ∧
    (gpsData ctxWrap)._u32_nmea_gprmc_count ≠ 0 ∧
    gpsAge 1000000 (gpsData ctxWrap) = 1 ∧
    (gpsData ctxWrap)._u32_utime_nmea_last + gpsAge 1000000 (gpsData ctxWrap) = 4294967296 ∧
    unixTimeNow 1000000 (gpsData ctxWrap) = 0 ∧
    unixTimeNow 1000000 (gpsData ctxWrap) ≠
      (gpsData ctxWrap)._u32_utime_nmea_last + gpsAge 1000000 (gpsData ctxWrap) := by
  decide

/-- C7 (amended): the extrapolated time equals
`(lastFixUnixTime + ageSeconds) mod 2^32` — computed from the monotonic
clock only — and equals `lastFixUnixTime + ageSeconds` exactly whenever
that sum is below `2^32`. -/
theorem C7_extrapolation (t : Nat) (td : GPStimeData) :
    unixTimeNow t td = (td._u32_utime_nmea_last + gpsAge t td) % 4294967296 ∧
    (td._u32_utime_nmea_last + gpsAge t td < 4294967296 →
      unixTimeNow t td = td._u32_utime_nmea_last + gpsAge t td) := by
  refine ⟨rfl, fun h => ?_⟩
  unfold unixTimeNow
  exact Nat.mod_eq_of_lt h

/-- C7 witness: 5 s past a fix at unix time 0 the extrapolated time is
the exact sum. -/
theorem C7_extrapolation_witness :
    unixTimeNow 5000000 (gpsData ctxBase) =
      (gpsData ctxBase)._u32_utime_nmea_last + gpsAge 5000000 (gpsData ctxBase) :=
  (C7_extrapolation 5000000 (gpsData ctxBase)).2 (by decide)

/-- C9 counterexample: polling one beacon context changes the latch
another context's polls observe — a fresh qualifying poll of the second
instance transmits, but after the first instance's poll set the shared
static latch, the identical poll of the second instance does not. -/
theorem C9_counterexample :
    pollTransmits (WSPRbeaconTxScheduler false 0 ctxOther) = true ∧
    pollTransmits
      (WSPRbeaconTxScheduler (pollLatch (WSPRbeaconTxScheduler false 0 ctxBase) false) 0
        ctxOther) = false := by
  decide

/-- C9 (amended): the edge-trigger latch is the single process-wide
`static` of the scheduler, shared by all beacon contexts: a trigger
during a poll of one instance sets the latch, and a qualifying,
eligible poll of any other instance then performs no action while it
remains set. -/
theorem C9_shared_latch (tA tB : Nat) (cA cB : WSPRbeaconContext)
    (havA : (gpsData cA)._u32_nmea_gprmc_count ≠ 0)
    (heA : gpsEligible tA cA = true)
    (hqA : slotIndexOf (unixTimeNow tA (gpsData cA)) % cA._txSched._u8_tx_slot_skip = 0)
    (hfA : 1100 * kHz < cA._pTX._u32_dialfreqhz)
    (havB : (gpsData cB)._u32_nmea_gprmc_count ≠ 0)
    (heB : gpsEligible tB cB = true)
    (hqB : slotIndexOf (unixTimeNow tB (gpsData cB)) % cB._txSched._u8_tx_slot_skip = 0) :
    pollLatch (WSPRbeaconTxScheduler false tA cA) false = true ∧
    WSPRbeaconTxScheduler (pollLatch (WSPRbeaconTxScheduler false tA cA) false) tB cB =
      some (true, [], 0, cB) := by
  rw [txScheduler_trigger tA cA havA heA hqA hfA]
  exact ⟨rfl, txScheduler_latched tB cB havB heB hqB⟩

/-- C9 witness: instance A's trigger suppresses instance B's qualifying
poll in the same slot. -/
theorem C9_shared_latch_witness :
    pollLatch (WSPRbeaconTxScheduler false 0 ctxBase) false = true ∧
    WSPRbeaconTxScheduler (pollLatch (WSPRbeaconTxScheduler false 0 ctxBase) false) 0
      ctxOther = some (true, [], 0, ctxOther) :=
  C9_shared_latch 0 0 ctxBase ctxOther (by decide) (by decide) (by decide) (by decide)
    (by decide) (by decide) (by decide)
